import Mathlib

/-!
Shallow embedding of `bot.py` (Tele-Bot), a Telegram bot that downloads
YouTube videos on request.  The pure data and control flow of the three
handlers (`handle_video_url`, `handle_resolution_choice`,
`download_and_send_video`) and of `main` are modelled directly.  The two
external collaborators enter as explicit inputs and oracles:

* the catalog lookup `YouTube(url)` is an input of type
  `Except String VideoInfo` (the `error` case models the exception raised by
  the extraction library, caught by the handler's generic `except`);
* `avail` models the provider's reply to
  `yt.streams.filter(file_extension='mp4', progressive=True)
     .order_by('resolution').desc()` (bot.py lines 117-120).  The filtering
  and ordering are performed inside the external library, so the handler is
  modelled as receiving this ordered list; theorems quantify over it and add
  explicit hypotheses where a property depends on its shape (for example,
  that every element carries a resolution label);
* Telegram message sends/edits/deletes are assumed not to raise; the success
  of the slow download and upload steps of the delivery pipeline is an
  explicit Boolean oracle.

Python floats are modelled by `ℚ`.  A falsy `filesize_mb` (the case the code
itself guards with `if stream.filesize_mb else "Unknown"`, line 131) is
modelled by `none`.  Python's `"{:.1f}"` applied to a genuine float is
modelled by `fmtFixed1` (fixed-point, truncating; no property below depends
on the final digit); applied to a non-float value (the string `"Unknown"`,
or `None`) it raises, which the embedding models by an `Option.none`
propagating to the enclosing `except` handler.
-/

namespace Bot

/-- One pytube stream object, restricted to the attributes `bot.py` reads.
`resolution` is `none` when the provider reports no resolution label;
`filesize_mb` is `none` when the size is unknown (falsy in Python). -/
structure Stream where
  resolution : Option String
  fps : Nat
  filesize_mb : Option ℚ
  file_extension : String
  progressive : Bool
  deriving DecidableEq

/-- The fields of the `YouTube(url)` object that `handle_video_url` reads
(bot.py lines 83-95).  `streams` is the provider's raw ordered stream list
(`yt.streams`), from which the preferred-quality query filters. -/
structure VideoInfo where
  title : String
  author : String
  length : Nat
  views : Nat
  thumbnail_url : String
  streams : List Stream
  deriving DecidableEq

/-- The value stored in `user_sessions[user_id]` (bot.py lines 140-144). -/
structure Session where
  streams : List Stream
  video_title : String
  message_id : Nat
  deriving DecidableEq

/-! ### Helpers: whitespace, substring search, integer parsing -/

/-- Python `str.rstrip()` restricted to its whitespace default: drop trailing
whitespace characters.  Written exactly as "reverse, drop leading, reverse"
(this is `List.rdropWhile` definitionally). -/
def rstripWs (l : List Char) : List Char :=
  (l.reverse.dropWhile Char.isWhitespace).reverse

/-- Python `str.strip()`: drop leading and trailing whitespace. -/
def trimWsL (l : List Char) : List Char :=
  rstripWs (l.dropWhile Char.isWhitespace)

/-- Python's `pat in s` substring test. -/
def listContains (l pat : List Char) : Bool :=
  l.tails.any (fun t => pat.isPrefixOf t)

/-- A nonempty all-decimal-digit list, read as a natural number. -/
def parseNatDigits (l : List Char) : Option Nat :=
  if !l.isEmpty && l.all Char.isDigit then
    some (l.foldl (fun a c => a * 10 + (c.toNat - 48)) 0)
  else none

/-- Python `int(text)` on message text (bot.py line 162): surrounding
whitespace, an optional sign, then decimal digits.  (Python additionally
accepts underscore digit grouping and non-ASCII digits; no property below
depends on those inputs.)  `none` models the `ValueError`. -/
def parseInt? (l : List Char) : Option Int :=
  match trimWsL l with
  | '-' :: rest => (parseNatDigits rest).map (fun n => -(n : Int))
  | '+' :: rest => (parseNatDigits rest).map (fun n => (n : Int))
  | l2 => (parseNatDigits l2).map (fun n => (n : Int))

/-- Fixed-point one-decimal display of a rational, modelling Python's
`"{:.1f}"` on a float (truncating where Python rounds; the sizes used in
concrete statements below are exact in one decimal, where both agree). -/
def fmtFixed1 (q : ℚ) : String :=
  let t : Int := Int.fdiv (q.num * 10) (q.den : Int)
  let w : Int := Int.fdiv t 10
  let d : Nat := (Int.fmod t 10).natAbs
  s!"{w}.{d}"

/-! ### The resolution menu (bot.py lines 126-144) -/

/-- The `enumerate(available_streams, 1)` loop of lines 129-133: the printed
index `i` advances for every stream of `available_streams`, but only streams
with a resolution label are rendered and appended to `streams_list`.  Each
kept stream is paired with the index printed next to it. -/
def menuEntries (i : Nat) : List Stream → List (Nat × Stream)
  | [] => []
  | s :: rest =>
    match s.resolution with
    | none => menuEntries (i + 1) rest
    | some _ => (i, s) :: menuEntries (i + 1) rest

/-- One line of the resolution menu (line 132).  The result is `none` when
`filesize_mb` is falsy: line 131 then substitutes the string `"Unknown"`,
and formatting that string with `:.1f` raises a `ValueError`.  (`menuLine`
is only ever applied to entries, whose stream has a resolution label; the
label-less case is collapsed into the same catch-all.) -/
def menuLine (i : Nat) (s : Stream) : Option String :=
  match s.resolution, s.filesize_mb with
  | some r, some q =>
    let fps := s.fps
    let sz := fmtFixed1 q
    some s!"{i}. {r} ({fps}fps) - {sz}MB\n"
  | _, _ => none

/-- Concatenation of the rendered menu lines; `none` models the exception
raised while building `resolutions_text` (it propagates to the generic
`except` of `handle_video_url`, so neither the menu nor a session is
produced). -/
def renderLines : List (Nat × Stream) → Option String
  | [] => some ""
  | e :: es =>
    match menuLine e.1 e.2, renderLines es with
    | some l, some t => some (l ++ t)
    | _, _ => none

def menuHeader : String := "📋 **Available Resolutions:**\n\n"

def menuFooter : String := "\nReply with number to download (e.g., \x271\x27)"

/-- The full `resolutions_text` of lines 126-135. -/
def resolutions_text (avail : List Stream) : Option String :=
  (renderLines (menuEntries 1 avail)).map
    (fun body => menuHeader ++ body ++ menuFooter)

/-- The `streams_list` stored into the session (line 133): exactly the
streams of the rendered entries, in rendering order. -/
def streams_list (avail : List Stream) : List Stream :=
  (menuEntries 1 avail).map Prod.snd

/-- Specification-side enumeration: pair each element of a list with its
1-based position, starting at `n`.  Used to compare the printed menu indices
with positions in the stored session list. -/
def indexedFrom (n : Nat) : List Stream → List (Nat × Stream)
  | [] => []
  | s :: rest => (n, s) :: indexedFrom (n + 1) rest

/-! ### The delivery pipeline `download_and_send_video` (bot.py 198-227) -/

/-- Characters retained by the filename sanitizer (line 205):
`c.isalnum() or c in (' ', '-', '_')`. -/
def keepChar (c : Char) : Bool :=
  c.isAlphanum || c == ' ' || c == '-' || c == '_'

/-- The generator-join of line 205 before `rstrip`. -/
def filteredTitle (t : List Char) : List Char :=
  t.filter keepChar

/-- `safe_title` of line 205: filter, then `rstrip()`. -/
def safe_title (t : List Char) : List Char :=
  rstripWs (filteredTitle t)

/-- The resolution-bearing `filename` computed on line 206.  It is never
used by the rest of the function. -/
def resolution_filename (t : List Char) (res : String) : List Char :=
  "downloads/".data ++ (safe_title t).take 50 ++ "_".data ++ res.data
    ++ ".mp4".data

/-- The local path actually written and read: line 209 passes
`filename=f"{safe_title[:50]}.mp4"` with `output_path="downloads"`. -/
def download_path (t : List Char) : List Char :=
  "downloads/".data ++ (safe_title t).take 50 ++ ".mp4".data

/-- Whether the local file at the delivery's `download_path` exists. -/
structure LocalFs where
  fileExists : Bool
  deriving DecidableEq

/-- Result of one run of `download_and_send_video`: `sent` means the video
message went out (and carries the caption of line 215); `failed` means the
generic `except` of lines 225-227 replied with a failure message. -/
inductive DeliveryOutcome where
  | sent (path : List Char) (caption : String)
  | failed (path : List Char)
  deriving DecidableEq

/-- The path a delivery outcome read/wrote locally. -/
def DeliveryOutcome.path : DeliveryOutcome → List Char
  | .sent p _ => p
  | .failed p => p

/-- `download_and_send_video` (bot.py lines 198-227).  `fetchOk` is the
success of `stream.download` (line 209; failure modelled as creating no
file), `sendOk` the success of `reply_video` (lines 212-220).  The
`os.remove` of line 223 sits inside the `try`, after the send: it runs only
when both steps succeeded.  An exception during the send jumps to line 225,
skipping the removal, and the handler itself never re-raises. -/
def download_and_send_video (fs : LocalFs) (title resolution : String)
    (fetchOk sendOk : Bool) : LocalFs × DeliveryOutcome :=
  let path := download_path title.data
  let caption := s!"🎬 {title}\n📊 Resolution: {resolution}"
  if fetchOk then
    if sendOk then
      (⟨false⟩, DeliveryOutcome.sent path caption)
    else
      (⟨true⟩, DeliveryOutcome.failed path)
  else
    (fs, DeliveryOutcome.failed path)

/-! ### `handle_video_url` (bot.py lines 64-151) -/

/-- The preferred-quality query of lines 98-102:
`filter(file_extension='mp4', res="1080p", progressive=True)`. -/
def isPreferred (s : Stream) : Bool :=
  s.file_extension == "mp4" && s.resolution == some "1080p" && s.progressive

/-- The URL validation of line 70: substring containment of either host
keyword in the stripped message text (line 67). -/
def isYouTubeUrl (url : String) : Bool :=
  listContains (trimWsL url.data) "youtube.com".data ||
  listContains (trimWsL url.data) "youtu.be".data

/-- Observable outcome of one `handle_video_url` run.
`extractionError`: `YouTube(url)` raised, generic error replied (line 151).
`hdCrash`: a preferred 1080p stream was found but its size is unknown, so
the f-string of line 108 raised before any download.
`hdDelivery`: the 1080p short-circuit invoked `download_and_send_video`.
`noStreams`: the filtered list was empty (line 123).
`menuCrash`: building `resolutions_text` raised (unknown size, line 132).
`menu`: the numbered menu was shown and a session stored. -/
inductive UrlOutcome where
  | invalidUrl
  | extractionError (e : String)
  | hdCrash
  | hdDelivery (s : Stream) (ok : Bool)
  | noStreams
  | menuCrash
  | menu (text : String)
  deriving DecidableEq

/-- `handle_video_url`, modelled per sender: `prev` is the sender's current
session, the first component of the result the sender's session afterwards.
The `del user_sessions[user_id]` of lines 76-77 runs before the catalog
lookup, so every path past the URL validation starts from an absent session.
`avail` is the provider's ordered reply to the progressive-MP4 query of
lines 117-120 (see the module docstring). -/
def handle_video_url (prev : Option Session) (url : String)
    (resp : Except String VideoInfo) (avail : List Stream)
    (msgId : Nat) (dok : Bool) : Option Session × UrlOutcome :=
  if isYouTubeUrl url then
    match resp with
    | Except.error e => (none, UrlOutcome.extractionError e)
    | Except.ok yt =>
      match (yt.streams.filter isPreferred).head? with
      | some hd =>
        match hd.filesize_mb with
        | none => (none, UrlOutcome.hdCrash)
        | some _ => (none, UrlOutcome.hdDelivery hd dok)
      | none =>
        if avail.isEmpty then (none, UrlOutcome.noStreams)
        else
          match resolutions_text avail with
          | none => (none, UrlOutcome.menuCrash)
          | some txt =>
            (some { streams := streams_list avail,
                    video_title := yt.title,
                    message_id := msgId }, UrlOutcome.menu txt)
  else (prev, UrlOutcome.invalidUrl)

/-! ### `handle_resolution_choice` (bot.py lines 153-196) -/

/-- Observable outcome of one `handle_resolution_choice` run.
`noSession`: line 158's reply.  `invalidNumber`: `int()` raised, caught as
`ValueError` (line 193).  `outOfRange`: line 190's reply, carrying the
bound.  `formatCrash`: the selected stream's size is unknown, so the
f-string of line 173 raised before any download (caught by the generic
`except` of line 194, leaving the session in place).  `delivered`: the
pipeline was invoked on the selected stream. -/
inductive ChoiceOutcome where
  | noSession
  | invalidNumber
  | outOfRange (n : Nat)
  | formatCrash
  | delivered (s : Stream) (ok : Bool)
  deriving DecidableEq

instance : Inhabited Stream :=
  ⟨{ resolution := none, fps := 0, filesize_mb := none,
     file_extension := "", progressive := false }⟩

/-- `handle_resolution_choice`, modelled per sender.  `pok` is the success
oracle of the delivery pipeline; since `download_and_send_video` catches its
own exceptions and never re-raises, the caller reaches the
`del user_sessions[user_id]` of line 187 in both cases.  The range guard of
line 167 makes the `getD` fallback unreachable, matching the in-bounds
`streams[choice - 1]` of line 168. -/
def handle_resolution_choice (sess : Option Session) (text : String)
    (pok : Bool) : Option Session × ChoiceOutcome :=
  match sess with
  | none => (none, ChoiceOutcome.noSession)
  | some S =>
    match parseInt? text.data with
    | none => (some S, ChoiceOutcome.invalidNumber)
    | some k =>
      if 1 ≤ k ∧ k ≤ (S.streams.length : Int) then
        let sel := S.streams.getD (k - 1).toNat default
        match sel.filesize_mb with
        | none => (some S, ChoiceOutcome.formatCrash)
        | some _ => (none, ChoiceOutcome.delivered sel pok)
      else (some S, ChoiceOutcome.outOfRange S.streams.length)

/-- Invariant of every session that `handle_video_url` stores: each stored
stream carries a resolution label (the loop guard of line 130) and a known
size (otherwise rendering its menu line would have raised and no session
would have been stored). -/
def SessionWF (S : Session) : Prop :=
  ∀ v ∈ S.streams, v.resolution.isSome ∧ v.filesize_mb.isSome

/-! ### `main` (bot.py lines 241-280) -/

/-- `BOT_TOKEN = os.environ.get('BOT_TOKEN', 'YOUR_BOT_TOKEN_HERE')`
(line 16), as a function of the environment lookup result. -/
def BOT_TOKEN (env : Option String) : String :=
  env.getD "YOUR_BOT_TOKEN_HERE"

/-- Result of `main`: `exitWithDiagnostic` prints the three error lines of
lines 245-247 and returns before `Application.builder()` is touched;
`started` builds the application with the given token and runs polling. -/
inductive MainResult where
  | exitWithDiagnostic
  | started (token : String)
  deriving DecidableEq

/-- `main` (lines 241-280), as a function of the `BOT_TOKEN` environment
lookup. -/
def main (env : Option String) : MainResult :=
  if BOT_TOKEN env == "YOUR_BOT_TOKEN_HERE" then MainResult.exitWithDiagnostic
  else MainResult.started (BOT_TOKEN env)

/-! ### Sample streams and catalogs used in concrete statements -/

/-- A 720p progressive MP4 stream of known size 10 MB. -/
def s720 : Stream :=
  { resolution := some "720p", fps := 30, filesize_mb := some 10,
    file_extension := "mp4", progressive := true }

/-- A 480p progressive MP4 stream of known size 10 MB. -/
def s480 : Stream :=
  { resolution := some "480p", fps := 30, filesize_mb := some 10,
    file_extension := "mp4", progressive := true }

/-- A 720p progressive MP4 stream of unknown size. -/
def s720u : Stream :=
  { resolution := some "720p", fps := 30, filesize_mb := none,
    file_extension := "mp4", progressive := true }

/-- A progressive MP4 stream with no resolution label. -/
def sNoLabel : Stream :=
  { resolution := none, fps := 30, filesize_mb := some 5,
    file_extension := "mp4", progressive := true }

/-- A 1080p progressive MP4 stream of unknown size. -/
def s1080u : Stream :=
  { resolution := some "1080p", fps := 30, filesize_mb := none,
    file_extension := "mp4", progressive := true }

/-- A 1080p progressive MP4 stream of known size 50 MB. -/
def s1080 : Stream :=
  { resolution := some "1080p", fps := 30, filesize_mb := some 50,
    file_extension := "mp4", progressive := true }

def mkInfo (ss : List Stream) : VideoInfo :=
  { title := "t", author := "a", length := 10, views := 1,
    thumbnail_url := "th", streams := ss }

/-- A session as stored by the URL handler for two known-size streams. -/
def sampleSession : Session :=
  { streams := [s720, s480], video_title := "T", message_id := 9 }

end Bot

namespace Bot

/-! ### Helper lemmas -/

theorem menuLine_isSome {i : Nat} {s : Stream} {l : String}
    (h : menuLine i s = some l) :
    s.resolution.isSome ∧ s.filesize_mb.isSome := by
  cases hr : s.resolution <;> cases hf : s.filesize_mb <;>
    simp [menuLine, hr, hf] at h ⊢

theorem renderLines_mem {es : List (Nat × Stream)} {t : String}
    (h : renderLines es = some t) :
    ∀ e ∈ es, ∃ l, menuLine e.1 e.2 = some l := by
  induction es generalizing t with
  | nil => intro e he; cases he
  | cons hd tl ih =>
    intro e he
    unfold renderLines at h
    cases hm : menuLine hd.1 hd.2 with
    | none => rw [hm] at h; simp at h
    | some l0 =>
      rw [hm] at h
      cases hr : renderLines tl with
      | none => rw [hr] at h; simp at h
      | some t0 =>
        rw [hr] at h
        cases he with
        | head => exact ⟨l0, hm⟩
        | tail _ htl => exact ih hr e htl

theorem resolutions_text_wf {avail : List Stream} {t : String}
    (h : resolutions_text avail = some t) :
    ∀ v ∈ streams_list avail, v.resolution.isSome ∧ v.filesize_mb.isSome := by
  unfold resolutions_text at h
  obtain ⟨body, hb, -⟩ := Option.map_eq_some'.mp h
  intro v hv
  obtain ⟨e, he, rfl⟩ := List.mem_map.mp hv
  obtain ⟨l, hl⟩ := renderLines_mem hb e he
  exact menuLine_isSome hl

/-- Inversion of a `handle_video_url` run that stored a session: the
preferred-quality query found nothing, the filtered provider list was
non-empty, the menu rendered, and the stored session is exactly the menu's
`streams_list`. -/
theorem url_session_inversion {prev : Option Session} {url : String}
    {yt : VideoInfo} {avail : List Stream} {msgId : Nat} {dok : Bool}
    {S : Session} {o : UrlOutcome}
    (hurl : isYouTubeUrl url = true)
    (h : handle_video_url prev url (Except.ok yt) avail msgId dok
          = (some S, o)) :
    (yt.streams.filter isPreferred).head? = none ∧ avail ≠ [] ∧
    ∃ txt, resolutions_text avail = some txt ∧
      S = { streams := streams_list avail, video_title := yt.title,
            message_id := msgId } ∧
      o = UrlOutcome.menu txt := by
  unfold handle_video_url at h
  rw [if_pos hurl] at h
  dsimp only at h
  cases hhd : (yt.streams.filter isPreferred).head? with
  | some hd =>
    rw [hhd] at h
    dsimp only at h
    cases hf : hd.filesize_mb <;> rw [hf] at h <;> simp at h
  | none =>
    rw [hhd] at h
    dsimp only at h
    by_cases he : avail.isEmpty
    · rw [if_pos he] at h; simp at h
    · rw [if_neg he] at h
      cases ht : resolutions_text avail with
      | none => rw [ht] at h; simp at h
      | some txt =>
        rw [ht] at h
        dsimp only at h
        simp only [Prod.mk.injEq, Option.some.injEq] at h
        refine ⟨rfl, fun hnil => he ?_, txt, rfl, h.1.symm, h.2.symm⟩
        rw [hnil]; rfl

/-- Every session stored by `handle_video_url` satisfies `SessionWF`. -/
theorem handle_video_url_wf {prev : Option Session} {url : String}
    {resp : Except String VideoInfo} {avail : List Stream} {msgId : Nat}
    {dok : Bool} {S : Session} {o : UrlOutcome}
    (hurl : isYouTubeUrl url = true)
    (h : handle_video_url prev url resp avail msgId dok = (some S, o)) :
    SessionWF S := by
  cases resp with
  | error e =>
    unfold handle_video_url at h
    rw [if_pos hurl] at h
    simp at h
  | ok yt =>
    obtain ⟨-, -, txt, ht, hS, -⟩ := url_session_inversion hurl h
    subst hS
    intro v hv
    exact resolutions_text_wf ht v hv

theorem menuEntries_all_labeled {l : List Stream}
    (h : ∀ s ∈ l, s.resolution.isSome) :
    ∀ i, menuEntries i l = indexedFrom i l := by
  induction l with
  | nil => intro i; rfl
  | cons s rest ih =>
    intro i
    have hs : s.resolution.isSome = true := h s (List.mem_cons_self s rest)
    unfold menuEntries indexedFrom
    cases hr : s.resolution with
    | none => rw [hr] at hs; simp at hs
    | some r =>
      dsimp only
      rw [ih (fun x hx => h x (List.mem_cons_of_mem s hx))]

theorem indexedFrom_map_snd (n : Nat) (l : List Stream) :
    (indexedFrom n l).map Prod.snd = l := by
  induction l generalizing n with
  | nil => rfl
  | cons s rest ih => simp [indexedFrom, ih]

/-- When every filtered variant is labelled, the stored list is the
filtered list itself. -/
theorem streams_list_all_labeled {avail : List Stream}
    (h : ∀ s ∈ avail, s.resolution.isSome) :
    streams_list avail = avail := by
  unfold streams_list
  rw [menuEntries_all_labeled h 1, indexedFrom_map_snd]

/-- Reduction of `handle_video_url` when the preferred-quality query finds a
stream. -/
theorem url_hd_eq {prev : Option Session} {url : String} {yt : VideoInfo}
    {avail : List Stream} {msgId : Nat} {dok : Bool} {hd : Stream}
    (hurl : isYouTubeUrl url = true)
    (hhd : (yt.streams.filter isPreferred).head? = some hd) :
    handle_video_url prev url (Except.ok yt) avail msgId dok
      = match hd.filesize_mb with
        | none => (none, UrlOutcome.hdCrash)
        | some _ => (none, UrlOutcome.hdDelivery hd dok) := by
  unfold handle_video_url
  rw [if_pos hurl]
  dsimp only
  rw [hhd]

/-- Reduction of the in-range branch of `handle_resolution_choice`, for a
well-formed session. -/
theorem choice_in_range_eq {S : Session} {k : Int} {sel : Stream}
    {m : String} (pok : Bool) (hw : SessionWF S)
    (hp : parseInt? m.data = some k)
    (h1 : 1 ≤ k) (h2 : k ≤ (S.streams.length : Int))
    (hsel : S.streams[(k - 1).toNat]? = some sel) :
    handle_resolution_choice (some S) m pok
      = (none, ChoiceOutcome.delivered sel pok) := by
  have hgd : S.streams.getD (k - 1).toNat default = sel := by
    rw [List.getD_eq_getElem?_getD, hsel]; rfl
  have hmem : sel ∈ S.streams := List.getElem?_mem hsel
  obtain ⟨-, hfs⟩ := hw sel hmem
  obtain ⟨q, hq⟩ := Option.isSome_iff_exists.mp hfs
  unfold handle_resolution_choice
  dsimp only
  rw [hp]
  dsimp only
  rw [if_pos ⟨h1, h2⟩]
  simp only [hgd, hq]

end Bot

namespace Bot

/-! ### Claim theorems -/

/-- C1, counterexample: fetch succeeds and the send raises — after
`download_and_send_video` returns, the downloaded file still exists.  The
`os.remove` of line 223 sits inside the `try` after the send, so the
exception jumps past it to the handler of lines 225-227, and there is no
`finally`. -/
theorem c1_file_left_after_failed_send :
    (download_and_send_video ⟨false⟩ "My Video" "720p" true false).1.fileExists
      = true := rfl

/-- C1 as amended: the local file is removed when fetch and send both
succeed; when the send raises after the file was written, the error is
reported but the file is left on disk. -/
theorem c1_cleanup_only_on_success (fs : LocalFs) (t r : String) :
    (download_and_send_video fs t r true true).1.fileExists = false ∧
    (download_and_send_video fs t r true false).1.fileExists = true :=
  ⟨rfl, rfl⟩

/-- C2, counterexample: a label-less variant ahead of a labelled one.  The
menu renders a single entry printed with index 2 (`enumerate` counted the
skipped variant), while that variant sits at position 1 of the stored
`streams_list` — the printed index does not equal the stored position. -/
theorem c2_printed_index_mismatch :
    menuEntries 1 [sNoLabel, s720] = [(2, s720)] ∧
    indexedFrom 1 (streams_list [sNoLabel, s720]) = [(1, s720)] ∧
    menuEntries 1 [sNoLabel, s720]
      ≠ indexedFrom 1 (streams_list [sNoLabel, s720]) := by
  refine ⟨rfl, rfl, ?_⟩
  decide

/-- C2 as amended: provided every variant of the filtered list carries a
resolution label, the printed 1-based indices coincide with positions in
the stored list (`menuEntries 1 avail` is exactly the 1-based enumeration
of `streams_list avail`), and the stored list is the filtered list itself —
nothing added, removed or reordered.  (`handle_video_url` stores exactly
`streams_list avail` and renders exactly `menuEntries 1 avail`, by
definition of its menu branch.) -/
theorem c2_indices_match_when_all_labeled (avail : List Stream)
    (h : ∀ s ∈ avail, s.resolution.isSome) :
    menuEntries 1 avail = indexedFrom 1 (streams_list avail) ∧
    streams_list avail = avail := by
  have h2 := streams_list_all_labeled h
  exact ⟨by rw [menuEntries_all_labeled h 1, h2], h2⟩

theorem c2_indices_witness :
    menuEntries 1 [s720, s480] = indexedFrom 1 (streams_list [s720, s480]) ∧
    streams_list [s720, s480] = [s720, s480] :=
  c2_indices_match_when_all_labeled [s720, s480] (by decide)

/-- C3, at the failing input (a variant list containing a 720p stream of
unknown size): line 131 substitutes the string `"Unknown"` and line 132
formats it with `:.1f`, which raises — the menu is never produced and the
URL handler falls into its generic `except`.  For a known size the line
does render resolution, frame rate and one-decimal size (first conjunct);
the claimed `"...UnknownMB"` rendering is unreachable. -/
theorem c3_unknown_size_menu_crash :
    menuLine 1 s720 = some "1. 720p (30fps) - 10.0MB\n" ∧
    resolutions_text [s720u] = none ∧
    handle_video_url none "https://youtube.com/watch?v=a"
        (Except.ok (mkInfo [s720u])) [s720u] 1 true
      = (none, UrlOutcome.menuCrash) := by
  refine ⟨rfl, rfl, ?_⟩
  decide

/-- C4: with a well-formed session (the invariant `handle_video_url_wf`
guarantees for every stored session) the choice handler behaves as claimed:
a non-integer reply reports the invalid-number error with the session
untouched; an integer outside `[1, N]` reports the out-of-range error with
the session untouched; an integer in range delivers exactly the k-th stored
variant. -/
theorem c4_choice_dispatch (S : Session) (hw : SessionWF S) (m : String)
    (pok : Bool) :
    (parseInt? m.data = none →
      handle_resolution_choice (some S) m pok
        = (some S, ChoiceOutcome.invalidNumber)) ∧
    (∀ k : Int, parseInt? m.data = some k →
      ¬(1 ≤ k ∧ k ≤ (S.streams.length : Int)) →
      handle_resolution_choice (some S) m pok
        = (some S, ChoiceOutcome.outOfRange S.streams.length)) ∧
    (∀ (k : Int) (sel : Stream), parseInt? m.data = some k →
      1 ≤ k → k ≤ (S.streams.length : Int) →
      S.streams[(k - 1).toNat]? = some sel →
      handle_resolution_choice (some S) m pok
        = (none, ChoiceOutcome.delivered sel pok)) := by
  refine ⟨?_, ?_, ?_⟩
  · intro hp
    unfold handle_resolution_choice
    dsimp only
    rw [hp]
  · intro k hp hk
    unfold handle_resolution_choice
    dsimp only
    rw [hp]
    dsimp only
    rw [if_neg hk]
  · intro k sel hp h1 h2 hsel
    exact choice_in_range_eq pok hw hp h1 h2 hsel

theorem sampleSession_wf : SessionWF sampleSession := by
  unfold SessionWF sampleSession
  decide

theorem c4_choice_dispatch_witness :
    handle_resolution_choice (some sampleSession) "abc" true
      = (some sampleSession, ChoiceOutcome.invalidNumber) ∧
    handle_resolution_choice (some sampleSession) "5" true
      = (some sampleSession, ChoiceOutcome.outOfRange 2) ∧
    handle_resolution_choice (some sampleSession) "2" true
      = (none, ChoiceOutcome.delivered s480 true) := by
  have h := c4_choice_dispatch sampleSession sampleSession_wf "abc" true
  have h2 := c4_choice_dispatch sampleSession sampleSession_wf "5" true
  have h3 := c4_choice_dispatch sampleSession sampleSession_wf "2" true
  exact ⟨h.1 (by decide),
         h2.2.1 5 (by decide) (by decide),
         h3.2.2 2 s480 (by decide) (by decide) (by decide) (by decide)⟩

/-- C5: an in-range choice on a (well-formed, as always stored) session
leaves the user without a session afterwards, whether the delivery pipeline
succeeds or fails: `download_and_send_video` catches its own exceptions, so
the `del user_sessions[user_id]` of line 187 runs in both cases. -/
theorem c5_session_absent_after_delivery (S : Session) (hw : SessionWF S)
    (m : String) (k : Int) (sel : Stream)
    (hp : parseInt? m.data = some k)
    (h1 : 1 ≤ k) (h2 : k ≤ (S.streams.length : Int))
    (hsel : S.streams[(k - 1).toNat]? = some sel) (pok : Bool) :
    (handle_resolution_choice (some S) m pok).1 = none := by
  rw [choice_in_range_eq pok hw hp h1 h2 hsel]

theorem c5_session_absent_witness :
    (handle_resolution_choice (some sampleSession) "1" true).1 = none ∧
    (handle_resolution_choice (some sampleSession) "1" false).1 = none :=
  ⟨c5_session_absent_after_delivery sampleSession sampleSession_wf "1" 1 s720
      (by decide) (by decide) (by decide) (by decide) true,
   c5_session_absent_after_delivery sampleSession sampleSession_wf "1" 1 s720
      (by decide) (by decide) (by decide) (by decide) false⟩

/-- C6, counterexample: the catalog's only progressive MP4 variant carries
no resolution label.  The filtered provider list is non-empty, so the
emptiness check of line 122 passes, the loop renders no entry, and a
session with an EMPTY variant list is stored — refuting "a Session is
stored only if ... more than zero variants". -/
theorem c6_empty_session_stored :
    (handle_video_url none "youtube.com/watch?v=b"
        (Except.ok (mkInfo [sNoLabel])) [sNoLabel] 7 true).1
      = some { streams := [], video_title := "t", message_id := 7 } := by
  decide

/-- C6 as amended: on a valid-URL run, a session is stored only if the
preferred-quality query found nothing and the filtered provider list is
non-empty; when the filtered list is empty the no-streams message is
reported and no session is created; and the stored variant list is
non-empty provided every filtered variant carries a resolution label (the
stored list equals the filtered list then). -/
theorem c6_session_creation_conditions (prev : Option Session)
    (url : String) (yt : VideoInfo) (avail : List Stream) (msgId : Nat)
    (dok : Bool) (hurl : isYouTubeUrl url = true) :
    (∀ S o, handle_video_url prev url (Except.ok yt) avail msgId dok
        = (some S, o) →
      (yt.streams.filter isPreferred).head? = none ∧ avail ≠ [] ∧
        S.streams = streams_list avail) ∧
    ((yt.streams.filter isPreferred).head? = none → avail = [] →
      handle_video_url prev url (Except.ok yt) avail msgId dok
        = (none, UrlOutcome.noStreams)) ∧
    (∀ S o, handle_video_url prev url (Except.ok yt) avail msgId dok
        = (some S, o) →
      (∀ s ∈ avail, s.resolution.isSome) → S.streams ≠ []) := by
  refine ⟨?_, ?_, ?_⟩
  · intro S o h
    obtain ⟨hhd, hne, txt, -, hS, -⟩ := url_session_inversion hurl h
    exact ⟨hhd, hne, by rw [hS]⟩
  · intro hhd hnil
    subst hnil
    unfold handle_video_url
    rw [if_pos hurl]
    dsimp only
    rw [hhd]
    rfl
  · intro S o h hlab
    obtain ⟨-, hne, txt, -, hS, -⟩ := url_session_inversion hurl h
    rw [hS]
    simpa [streams_list_all_labeled hlab] using hne

theorem c6_session_creation_witness :
    handle_video_url none "youtu.be/z" (Except.ok (mkInfo [])) [] 1 true
      = (none, UrlOutcome.noStreams) :=
  (c6_session_creation_conditions none "youtu.be/z" (mkInfo []) [] 1 true
      (by decide)).2.1 rfl rfl

/-- C7, counterexample: the catalog contains an exact preferred match (MP4,
1080p, progressive) whose size is unknown.  The handler takes the
short-circuit branch, but the f-string of line 108 formats
`filesize_mb:.1f` with `None` and raises before `download_and_send_video`
is called — the delivery pipeline is NOT invoked (no menu and no session
either; a generic error is reported). -/
theorem c7_unknown_size_preferred_no_delivery :
    handle_video_url none "youtu.be/q" (Except.ok (mkInfo [s1080u])) [] 2
        true
      = (none, UrlOutcome.hdCrash) := by
  decide

/-- C7 as amended: whenever the catalog response contains a variant exactly
matching the preferred policy, no menu is ever rendered and no session is
ever stored; the delivery pipeline is invoked immediately with the first
such variant provided its size is known, while an unknown size makes the
size display raise first and the run ends with an error instead of a
delivery. -/
theorem c7_preferred_short_circuit (prev : Option Session) (url : String)
    (yt : VideoInfo) (avail : List Stream) (msgId : Nat) (dok : Bool)
    (hurl : isYouTubeUrl url = true)
    (hmem : ∃ s ∈ yt.streams, isPreferred s = true) :
    (handle_video_url prev url (Except.ok yt) avail msgId dok).1 = none ∧
    (∀ t, (handle_video_url prev url (Except.ok yt) avail msgId dok).2
        ≠ UrlOutcome.menu t) ∧
    ∃ hd, (yt.streams.filter isPreferred).head? = some hd ∧
      (∀ q : ℚ, hd.filesize_mb = some q →
        handle_video_url prev url (Except.ok yt) avail msgId dok
          = (none, UrlOutcome.hdDelivery hd dok)) ∧
      (hd.filesize_mb = none →
        handle_video_url prev url (Except.ok yt) avail msgId dok
          = (none, UrlOutcome.hdCrash)) := by
  obtain ⟨s0, hs0, hp0⟩ := hmem
  have hne : yt.streams.filter isPreferred ≠ [] := by
    intro hnil
    have hmem0 : s0 ∈ yt.streams.filter isPreferred :=
      List.mem_filter.mpr ⟨hs0, hp0⟩
    rw [hnil] at hmem0
    cases hmem0
  obtain ⟨hd, rest, heq⟩ := List.exists_cons_of_ne_nil hne
  have hhd : (yt.streams.filter isPreferred).head? = some hd := by
    rw [heq]; rfl
  have hred := @url_hd_eq prev url yt avail msgId dok hd hurl hhd
  refine ⟨?_, ?_, hd, hhd, ?_, ?_⟩
  · rw [hred]; cases hf : hd.filesize_mb <;> rfl
  · intro t hmenu
    rw [hred] at hmenu
    cases hf : hd.filesize_mb <;> rw [hf] at hmenu <;> simp at hmenu
  · intro q hq; rw [hred, hq]
  · intro hq; rw [hred, hq]

theorem c7_preferred_witness :
    handle_video_url none "youtu.be/q" (Except.ok (mkInfo [s1080])) [] 2
        true
      = (none, UrlOutcome.hdDelivery s1080 true) := by
  obtain ⟨-, -, hd, hhd, hsome, -⟩ :=
    c7_preferred_short_circuit none "youtu.be/q" (mkInfo [s1080]) [] 2 true
      (by decide) ⟨s1080, by decide, by decide⟩
  have hval : ((mkInfo [s1080]).streams.filter isPreferred).head?
      = some s1080 := by decide
  have hds : hd = s1080 := Option.some.inj (hval.symm.trans hhd).symm
  subst hds
  exact hsome 50 rfl

/-- C8: the sanitized title consists only of characters of the original
title that are alphanumeric, space, hyphen or underscore, in their original
order (it is a sublist of the title); and the portion used in the local
file name, `safe_title[:50]`, is a prefix of the filtered string of length
at most 50. -/
theorem c8_safe_title_sanitization (t : String) :
    (∀ c ∈ safe_title t.data, keepChar c = true) ∧
    List.Sublist (safe_title t.data) t.data ∧
    ((safe_title t.data).take 50).length ≤ 50 ∧
    (safe_title t.data).take 50 <+: filteredTitle t.data := by
  have hpre : safe_title t.data <+: filteredTitle t.data :=
    List.rdropWhile_prefix Char.isWhitespace (filteredTitle t.data)
  have hsub : List.Sublist (safe_title t.data) t.data :=
    hpre.sublist.trans (List.filter_sublist t.data)
  refine ⟨?_, hsub, List.length_take_le 50 _,
    (List.take_prefix 50 _).trans hpre⟩
  intro c hc
  exact List.of_mem_filter (hpre.sublist.subset hc)

/-- C9: with the credential absent from the environment or equal to the
placeholder, `main` prints its diagnostic and returns before the
application is built; with any other credential present, the application is
built and started with that token. -/
theorem c9_token_gate :
    (∀ env : Option String,
      env = none ∨ env = some "YOUR_BOT_TOKEN_HERE" →
        main env = MainResult.exitWithDiagnostic) ∧
    (∀ tok : String, tok ≠ "YOUR_BOT_TOKEN_HERE" →
        main (some tok) = MainResult.started tok) := by
  constructor
  · rintro env (rfl | rfl) <;> rfl
  · intro tok htok
    simp [main, BOT_TOKEN, htok]

theorem c9_token_gate_witness :
    main none = MainResult.exitWithDiagnostic ∧
    main (some "YOUR_BOT_TOKEN_HERE") = MainResult.exitWithDiagnostic ∧
    main (some "123456:abcdef") = MainResult.started "123456:abcdef" :=
  ⟨c9_token_gate.1 none (Or.inl rfl),
   c9_token_gate.1 (some "YOUR_BOT_TOKEN_HERE") (Or.inr rfl),
   c9_token_gate.2 "123456:abcdef" (by decide)⟩

/-- C10: the local path a delivery reads and writes is `download_path` of
the title alone — the resolution argument never influences it (the
resolution-bearing `filename` of line 206 is dead) — and two titles whose
sanitized 50-character prefixes agree yield the same local path at any
resolutions. -/
theorem c10_path_ignores_resolution (t1 t2 r1 r2 : String) (fs : LocalFs)
    (f s : Bool) :
    (download_and_send_video fs t1 r1 f s).2.path = download_path t1.data ∧
    ((safe_title t1.data).take 50 = (safe_title t2.data).take 50 →
      (download_and_send_video fs t1 r1 f s).2.path
        = (download_and_send_video fs t2 r2 f s).2.path) := by
  have hpath : ∀ t r : String,
      (download_and_send_video fs t r f s).2.path = download_path t.data := by
    intro t r
    unfold download_and_send_video
    cases f <;> cases s <;> rfl
  refine ⟨hpath t1 r1, fun h => ?_⟩
  rw [hpath t1 r1, hpath t2 r2]
  unfold download_path
  rw [h]

theorem c10_path_witness :
    (download_and_send_video ⟨false⟩ "AB!" "720p" true true).2.path
      = download_path "AB!".data ∧
    (download_and_send_video ⟨false⟩ "AB!" "720p" true true).2.path
      = (download_and_send_video ⟨false⟩ "AB?" "480p" true true).2.path :=
  ⟨(c10_path_ignores_resolution "AB!" "AB?" "720p" "480p" ⟨false⟩
      true true).1,
   (c10_path_ignores_resolution "AB!" "AB?" "720p" "480p" ⟨false⟩
      true true).2 (by decide)⟩

end Bot
